import Mathlib

/-!
Verification of the tracklet-reconciliation core of
`deeplabcut/refine_training_dataset/tracklets.py` (class `TrackletManager`).

Shallow embedding conventions:
* a numpy float cell is `Option ℚ`, with `none` modelling NaN
  (comparisons against NaN are `false`, matching IEEE/numpy semantics);
* the canonical arrays `xy` and `prob` are total functions
  `slot → frame → value`; in-place numpy writes become functional updates;
* python lists indexed by slot (`tracklet2id`, `tracklet2bp`) and boolean
  masks (`unidentified_tracklets`, `empty_tracklets`) are likewise functions.
-/

/-- A single float cell of the canonical array; `none` models NaN. -/
abbrev Cell := Option ℚ

/-- State of a `TrackletManager` instance: the canonical array split into its
`xy` and `prob` views, the slot identity maps, the two boolean masks, and the
two configured fractions (`__init__`, lines 140-157 of tracklets.py). -/
structure TMState where
  n : ℕ
  nframes : ℕ
  xy : ℕ → ℕ → Cell × Cell
  prob : ℕ → ℕ → Cell
  tracklet2id : ℕ → ℕ
  tracklet2bp : ℕ → ℕ
  unidentified_tracklets : ℕ → Bool
  empty_tracklets : ℕ → Bool
  min_swap_frac : ℚ
  min_tracklet_frac : ℚ

/-- Simultaneous exchange of the values of a slot-indexed map at `t1` and `t2`
(the python tuple swap on line 333, and the row exchange along the slot axis of
`np.ix_([t1, t2], inds)` on lines 331-332). -/
def swapVals {β : Type} (g : ℕ → β) (t1 t2 : ℕ) : ℕ → β :=
  fun s => if s = t1 then g t2 else if s = t2 then g t1 else g s

/-- Exchange of rows `t1` and `t2` of a (slot × frame) array at exactly the
frame indices `inds`: the effect of
`a[np.ix_([t1, t2], inds)] = a[np.ix_([t2, t1], inds)]` (lines 331-332; the
right-hand side is materialised before assignment, so the write is a genuine
simultaneous exchange). -/
def swapRows {β : Type} (g : ℕ → ℕ → β) (t1 t2 : ℕ) (inds : List ℕ) : ℕ → ℕ → β :=
  fun s f => if f ∈ inds then swapVals (fun r => g r f) t1 t2 s else g s f

/-- `TrackletManager.swap_tracklets` (lines 330-333): exchange the `xy` and
`prob` data of the two slots at the given frame indices, and exchange the two
slots' bodypart identities.  No other field is touched. -/
def swap_tracklets (st : TMState) (tracklet1 tracklet2 : ℕ) (inds : List ℕ) : TMState :=
  { st with
    xy := swapRows st.xy tracklet1 tracklet2 inds
    prob := swapRows st.prob tracklet1 tracklet2 inds
    tracklet2bp := swapVals st.tracklet2bp tracklet1 tracklet2 }

/-- `TrackletManager.calc_completeness` (lines 302-306, default
`by_individual=False` path) for one slot of the `xy` view handed to it:
`np.sum(~np.isnan(xy).any(axis=2), axis=1)` counts, per slot, the frames in
which no coordinate is NaN.  The numpy call returns the whole vector of these
counts; we expose the entry for slot `s`. -/
def calc_completeness (nframes : ℕ) (xy : ℕ → ℕ → Cell × Cell) (s : ℕ) : ℕ :=
  (List.range nframes).countP (fun f => (xy s f).1.isSome && (xy s f).2.isSome)

/-- `TrackletManager.update_empty_mask` (lines 319-321): a slot is marked empty
iff its completeness count is at most `min_tracklet_frac * nframes`. -/
def update_empty_mask (st : TMState) : TMState :=
  { st with
    empty_tracklets := fun s =>
      decide ((calc_completeness st.nframes st.xy s : ℚ) ≤ st.min_tracklet_frac * (st.nframes : ℚ)) }

/-- `TrackletManager.update_unidentified_mask` (lines 323-324):
`self.unidentified_tracklets &= np.logical_not(self.empty_tracklets)`. -/
def update_unidentified_mask (st : TMState) : TMState :=
  { st with
    unidentified_tracklets := fun s => st.unidentified_tracklets s && !(st.empty_tracklets s) }

/-- `np.argmax` over a boolean vector of length `n`: index of the first `true`
entry, and `0` when every entry is `false` (numpy returns the first maximal
element, and over an all-`False` array that is index 0). -/
def argmaxBool (mask : ℕ → Bool) (n : ℕ) : ℕ :=
  ((List.range n).find? (fun s => mask s)).getD 0

/-- Pointwise write of one entry of a slot-indexed map
(`self.tracklet2bp[ind_empty] = ...`, line 337, and the two mask writes on
lines 339-340). -/
def writeAt {β : Type} (g : ℕ → β) (i : ℕ) (v : β) : ℕ → β :=
  fun s => if s = i then v else g s

/-- `TrackletManager.cut_tracklet` (lines 335-340): pick the first empty slot
via `np.argmax(self.empty_tracklets)`, give it the cut slot's bodypart number,
exchange the data of the cut slot with it at the given frames via
`swap_tracklets`, then mark it unidentified and not empty. -/
def cut_tracklet (st : TMState) (num_tracklet : ℕ) (inds : List ℕ) : TMState :=
  let ind_empty := argmaxBool st.empty_tracklets st.n
  let st1 := { st with
    tracklet2bp := writeAt st.tracklet2bp ind_empty (st.tracklet2bp num_tracklet) }
  let st2 := swap_tracklets st1 num_tracklet ind_empty inds
  { st2 with
    unidentified_tracklets := writeAt st2.unidentified_tracklets ind_empty true
    empty_tracklets := writeAt st2.empty_tracklets ind_empty false }

section SwapValLemmas

variable {β : Type} (g : ℕ → β) (t1 t2 : ℕ)

theorem swapVals_fst : swapVals g t1 t2 t1 = g t2 := by
  simp [swapVals]

theorem swapVals_snd : swapVals g t1 t2 t2 = g t1 := by
  by_cases h : t2 = t1
  · subst h; simp [swapVals]
  · simp [swapVals, h]

theorem swapVals_other {s : ℕ} (h1 : s ≠ t1) (h2 : s ≠ t2) :
    swapVals g t1 t2 s = g s := by
  simp [swapVals, h1, h2]

theorem swapVals_swapVals : swapVals (swapVals g t1 t2) t1 t2 = g := by
  funext s
  by_cases h1 : s = t1
  · subst h1
    by_cases h : t2 = s
    · subst h; simp [swapVals]
    · simp [swapVals, h]
  · by_cases h2 : s = t2
    · subst h2; simp [swapVals, h1]
    · simp [swapVals, h1, h2]

end SwapValLemmas

section SwapRowLemmas

variable {β : Type} (g : ℕ → ℕ → β) (t1 t2 : ℕ) (inds : List ℕ)

theorem swapRows_mem {f : ℕ} (hf : f ∈ inds) (s : ℕ) :
    swapRows g t1 t2 inds s f = swapVals (fun r => g r f) t1 t2 s := by
  simp [swapRows, hf]

theorem swapRows_not_mem {f : ℕ} (hf : f ∉ inds) (s : ℕ) :
    swapRows g t1 t2 inds s f = g s f := by
  simp [swapRows, hf]

theorem swapRows_swapRows : swapRows (swapRows g t1 t2 inds) t1 t2 inds = g := by
  funext s f
  by_cases hf : f ∈ inds
  · have h1 : swapRows (swapRows g t1 t2 inds) t1 t2 inds s f
        = swapVals (fun r => swapRows g t1 t2 inds r f) t1 t2 s := swapRows_mem _ t1 t2 inds hf s
    have h2 : (fun r => swapRows g t1 t2 inds r f) = swapVals (fun r => g r f) t1 t2 := by
      funext r; exact swapRows_mem _ t1 t2 inds hf r
    rw [h1, h2, swapVals_swapVals]
  · rw [swapRows_not_mem _ t1 t2 inds hf, swapRows_not_mem _ t1 t2 inds hf]

end SwapRowLemmas

/-! ### Swap Detector (`find_swapping_bodypart_pairs`, lines 342-368) -/

/-- Elementwise numpy subtraction with NaN propagation: the broadcast
`sub = xy[:, np.newaxis] - xy` on line 348, at one coordinate of one frame. -/
def subD (a b : Cell) : Cell :=
  match a, b with
  | some x, some y => some (x - y)
  | _, _ => none

/-- `sub > 0` (line 350); any comparison against NaN is `False` in numpy. -/
def posD (d : Cell) : Bool :=
  match d with
  | some q => decide (0 < q)
  | none => false

/-- `sub <= 0` (line 351); any comparison against NaN is `False` in numpy. -/
def negD (d : Cell) : Bool :=
  match d with
  | some q => decide (q ≤ 0)
  | none => false

/-- x-coordinate difference trajectory of slots `i` and `j`. -/
def subx (st : TMState) (i j t : ℕ) : Cell := subD (st.xy i t).1 (st.xy j t).1

/-- y-coordinate difference trajectory of slots `i` and `j`. -/
def suby (st : TMState) (i j t : ℕ) : Cell := subD (st.xy i t).2 (st.xy j t).2

/-- `down = neg[:, :, 1:] & pos[:, :, :-1]` (line 352): window `t-1` of the
shifted arrays compares frames `t-1` and `t`, here written at frame `t`. -/
def downAt (d : ℕ → Cell) (t : ℕ) : Bool := negD (d t) && posD (d (t - 1))

/-- `up = pos[:, :, 1:] & neg[:, :, :-1]` (line 353). -/
def upAt (d : ℕ → Cell) (t : ℕ) : Bool := posD (d t) && negD (d (t - 1))

/-- `zero_crossings = down | up` (line 354). -/
def zeroCrossingAt (d : ℕ → Cell) (t : ℕ) : Bool := downAt d t || upAt d t

/-- `self.tracklet_swaps = zero_crossings.all(axis=3)` (line 356): a crossing
of slots `i` and `j` at frame `t` requires a zero crossing of the x difference
and of the y difference in the same frame window.  In the code the array is
indexed by positions within the non-empty-slot selection and by window `t-1`;
here `i`, `j` are the selected slots themselves and `t ≥ 1` the frame. -/
def tracklet_swaps (st : TMState) (i j t : ℕ) : Bool :=
  zeroCrossingAt (subx st i j) t && zeroCrossingAt (suby st i j) t

/-- `self.tracklet_swaps.sum(axis=2)` (line 357): number of crossing windows of
the pair `(i, j)`; the windows compare frames `t-1` and `t` for
`t = 1, ..., nframes - 1`. -/
def crossCount (st : TMState) (i j : ℕ) : ℕ :=
  (List.range (st.nframes - 1)).countP (fun k => tracklet_swaps st i j (k + 1))

/-- `cross = self.tracklet_swaps.sum(axis=2) > self.min_swap_frac * self.nframes`
(line 357). -/
def crossOver (st : TMState) (i j : ℕ) : Bool :=
  decide (st.min_swap_frac * (st.nframes : ℚ) < (crossCount st i j : ℚ))

/-- `nonempty = np.flatnonzero(np.logical_not(self.empty_tracklets))`
(line 346): the non-empty slots in increasing order. -/
def nonemptySlots (st : TMState) : List ℕ :=
  (List.range st.n).filter (fun s => !(st.empty_tracklets s))

/-- The pair list built by `find_swapping_bodypart_pairs` (lines 357-367):
`np.where(np.tril(cross))` enumerates, row-major, the index pairs `i ≥ j` of
the non-empty selection whose crossing count exceeds the threshold; the pairs
are mapped back to original slot indices and only those whose slots belong to
different individuals are kept (the final value of `self.swapping_pairs`). -/
def find_swapping_bodypart_pairs (st : TMState) : List (ℕ × ℕ) :=
  let ne := nonemptySlots st
  let temp_pairs :=
    (List.range ne.length).flatMap (fun i =>
      (List.range (i + 1)).filterMap (fun j =>
        if crossOver st (ne.getD i 0) (ne.getD j 0) = true then
          some (ne.getD i 0, ne.getD j 0)
        else none))
  temp_pairs.filter (fun p => decide (st.tracklet2id p.1 ≠ st.tracklet2id p.2))

/-- Modelled from the spec: a sign flip of a difference value between two
consecutive frames, in either direction — positive (`> 0`) to non-positive
(`<= 0`) or non-positive to positive; a NaN difference never flips. -/
def sign_flip (d0 d1 : Cell) : Prop :=
  match d0, d1 with
  | some a, some b => (0 < a ∧ b ≤ 0) ∨ (a ≤ 0 ∧ 0 < b)
  | _, _ => False

/-- Modelled from the spec: the crossing condition claimed by the spec, namely
that the x difference and the y difference both flip between frames `t-1` and
`t` in the same direction (both positive-to-negative or both
negative-to-positive). -/
def same_direction_crossing (st : TMState) (i j t : ℕ) : Bool :=
  (downAt (subx st i j) t && downAt (suby st i j) t) ||
    (upAt (subx st i j) t && upAt (suby st i j) t)

/-! ### Slot Assignment Engine (`load_tracklets_from_pickle`, lines 159-249) -/

/-- One frame of the dense per-tracklet array `to_fill` (line 178): the list of
channel values of that frame, `none` for NaN. -/
abbrev Row := List Cell

/-- `nonempty = np.any(~np.isnan(to_fill), axis=1)` at one frame (line 187). -/
def nonemptyRow (row : Row) : Bool := row.any (fun c => c.isSome)

/-- `completeness = nonempty.sum() / self.nframes` (line 188): the fraction of
frames of the dense array with at least one non-NaN channel. -/
def completeness (nframes : ℕ) (data : List Row) : ℚ :=
  ((data.countP nonemptyRow : ℚ)) / (nframes : ℚ)

/-- `tracklets_sorted = sorted(temp.items(), key=lambda kv: kv[1][1])`
(line 190): the tracklet entries sorted by ascending completeness.  Python's
`sorted` is a stable comparison sort; `List.insertionSort` with the same
(total, transitive) key order produces the same ascending arrangement. -/
def tracklets_sorted (nframes : ℕ) (entries : List (ℕ × List Row)) :
    List (ℕ × List Row) :=
  List.insertionSort
    (fun a b => completeness nframes a.2 ≤ completeness nframes b.2) entries

/-- The order in which the `while tracklets_sorted:` loop (lines 195-196)
processes — and hence writes — the tracklets: `list.pop()` removes from the end
of the sorted list, so the processing order is the reverse of the ascending
arrangement. -/
def processing_order (nframes : ℕ) (entries : List (ℕ × List Row)) :
    List (ℕ × List Row) :=
  (tracklets_sorted nframes entries).reverse

/-- An (x, y, confidence) triple of one bodypart at one frame. -/
abbrev Triple := ℚ × ℚ × ℚ

/-- A single-identity target or tracklet array at triple granularity:
frame → bodypart → optional (x, y, confidence) triple.  The numpy code
(lines 198-212) works elementwise on a `(nframes, 3 * nbodyparts)` float
array; under the canonical-array invariant that the three components of a
triple are NaN or present together (spec section 3), the elementwise masks
`has_data`, `is_free` and `overwrite` select whole aligned triples, which is
the granularity modelled here (and the one at which the confidence comparison
`(data[overwrite] > tracklets_single[overwrite])[2::3]` extracts the
confidence components). -/
abbrev Grid := ℕ → ℕ → Option Triple

/-- Phase one of the single-identity placement (lines 200-202):
`mask = has_data & is_free; tracklets_single[mask] = data[mask]` — copy the
tracklet's triples into cells of the target that are still NaN. -/
def fillFree (target data : Grid) : Grid :=
  fun f b =>
    match target f b, data f b with
    | none, some d => some d
    | t, _ => t

/-- Phase two of the single-identity placement (lines 204-212): on cells where
both the target and the tracklet hold data, keep the tracklet's triple exactly
when its confidence is strictly greater (`data[overwrite] >
tracklets_single[overwrite]` at the confidence component), otherwise keep the
target's triple. -/
def resolveOverwrite (target data : Grid) : Grid :=
  fun f b =>
    match target f b, data f b with
    | some t, some d => if t.2.2 < d.2.2 then some d else some t
    | t, _ => t

/-- The whole single-identity branch of the placement loop (lines 198-212):
first fill the free cells, then resolve the overwrite conflicts.  Phase two
only changes cells that held data before phase one, so the composition equals
the code's two in-place passes. -/
def place_single_identity (target data : Grid) : Grid :=
  resolveOverwrite (fillFree target data) data

/-! ### Example states used by witnesses and counterexamples -/

/-- Two slots over one frame; slot 0 holds data, slot 1 is NaN and its mask
entry is `true`. -/
def exSt4 : TMState where
  n := 2
  nframes := 1
  xy := fun s _f => if s = 0 then (some 1, some 2) else (none, none)
  prob := fun s _f => if s = 0 then some 1 else none
  tracklet2id := fun s => s
  tracklet2bp := fun s => s
  unidentified_tracklets := fun _s => false
  empty_tracklets := fun s => decide (s = 1)
  min_swap_frac := mkRat 1 100
  min_tracklet_frac := mkRat 1 100

/-- Two slots over two frames; slot 0 holds data in both frames, slot 1 is
NaN everywhere, and the stored empty mask is correct for this data. -/
def exSt3 : TMState where
  n := 2
  nframes := 2
  xy := fun s _f => if s = 0 then (some 1, some 1) else (none, none)
  prob := fun s _f => if s = 0 then some 1 else none
  tracklet2id := fun s => s
  tracklet2bp := fun s => s
  unidentified_tracklets := fun _s => false
  empty_tracklets := fun s => decide (s = 1)
  min_swap_frac := mkRat 1 100
  min_tracklet_frac := mkRat 1 100

/-- Two slots over one frame with distinct data and an all-`false` empty
mask. -/
def exSt10 : TMState where
  n := 2
  nframes := 1
  xy := fun s _f => if s = 0 then (some 1, some 2) else (some 3, some 4)
  prob := fun s _f => if s = 0 then some 1 else some 2
  tracklet2id := fun s => s
  tracklet2bp := fun s => s
  unidentified_tracklets := fun _s => false
  empty_tracklets := fun _s => false
  min_swap_frac := mkRat 1 100
  min_tracklet_frac := mkRat 1 100

/-! ### C5 — double swap is the identity -/

/-- C5: for valid slots `t1 ≠ t2` and any list of frame indices, applying
`swap_tracklets` twice with the same arguments restores the canonical array
(`xy` and `prob`) and both identity maps (`tracklet2id`, which `swap_tracklets`
never touches, and `tracklet2bp`). -/
theorem swap_tracklets_involutive (st : TMState) (t1 t2 : ℕ) (inds : List ℕ)
    (_hne : t1 ≠ t2) :
    (swap_tracklets (swap_tracklets st t1 t2 inds) t1 t2 inds).xy = st.xy ∧
    (swap_tracklets (swap_tracklets st t1 t2 inds) t1 t2 inds).prob = st.prob ∧
    (swap_tracklets (swap_tracklets st t1 t2 inds) t1 t2 inds).tracklet2id = st.tracklet2id ∧
    (swap_tracklets (swap_tracklets st t1 t2 inds) t1 t2 inds).tracklet2bp = st.tracklet2bp := by
  refine ⟨?_, ?_, rfl, ?_⟩
  · exact swapRows_swapRows st.xy t1 t2 inds
  · exact swapRows_swapRows st.prob t1 t2 inds
  · exact swapVals_swapVals st.tracklet2bp t1 t2

/-- Witness for C5 at a concrete state and arguments. -/
theorem swap_tracklets_involutive_witness :
    (0 : ℕ) ≠ 1 ∧
    (swap_tracklets (swap_tracklets exSt4 0 1 [0]) 0 1 [0]).xy = exSt4.xy :=
  ⟨by decide, (swap_tracklets_involutive exSt4 0 1 [0] (by decide)).1⟩

/-! ### C6 — frame effect of swap_tracklets -/

/-- C6: `swap_tracklets t1 t2 inds` exchanges the `(x, y)` and confidence data
of the two slots at exactly the frames in `inds` and exchanges their bodypart
identities; every other slot is untouched at every frame, and the two slots are
untouched at every frame outside `inds`. -/
theorem swap_tracklets_frame_effect (st : TMState) (t1 t2 : ℕ) (inds : List ℕ) :
    (∀ f ∈ inds,
      (swap_tracklets st t1 t2 inds).xy t1 f = st.xy t2 f ∧
      (swap_tracklets st t1 t2 inds).xy t2 f = st.xy t1 f ∧
      (swap_tracklets st t1 t2 inds).prob t1 f = st.prob t2 f ∧
      (swap_tracklets st t1 t2 inds).prob t2 f = st.prob t1 f) ∧
    ((swap_tracklets st t1 t2 inds).tracklet2bp t1 = st.tracklet2bp t2 ∧
      (swap_tracklets st t1 t2 inds).tracklet2bp t2 = st.tracklet2bp t1) ∧
    (∀ s, s ≠ t1 → s ≠ t2 →
      (swap_tracklets st t1 t2 inds).tracklet2bp s = st.tracklet2bp s ∧
      ∀ f, (swap_tracklets st t1 t2 inds).xy s f = st.xy s f ∧
        (swap_tracklets st t1 t2 inds).prob s f = st.prob s f) ∧
    (∀ f, f ∉ inds → ∀ s,
      (swap_tracklets st t1 t2 inds).xy s f = st.xy s f ∧
      (swap_tracklets st t1 t2 inds).prob s f = st.prob s f) := by
  refine ⟨fun f hf => ?_, ⟨?_, ?_⟩, fun s h1 h2 => ⟨?_, fun f => ?_⟩, fun f hf s => ?_⟩
  · exact ⟨(swapRows_mem st.xy t1 t2 inds hf t1).trans (swapVals_fst _ t1 t2),
      (swapRows_mem st.xy t1 t2 inds hf t2).trans (swapVals_snd _ t1 t2),
      (swapRows_mem st.prob t1 t2 inds hf t1).trans (swapVals_fst _ t1 t2),
      (swapRows_mem st.prob t1 t2 inds hf t2).trans (swapVals_snd _ t1 t2)⟩
  · exact swapVals_fst st.tracklet2bp t1 t2
  · exact swapVals_snd st.tracklet2bp t1 t2
  · exact swapVals_other st.tracklet2bp t1 t2 h1 h2
  · by_cases hf : f ∈ inds
    · exact ⟨(swapRows_mem st.xy t1 t2 inds hf s).trans (swapVals_other _ t1 t2 h1 h2),
        (swapRows_mem st.prob t1 t2 inds hf s).trans (swapVals_other _ t1 t2 h1 h2)⟩
    · exact ⟨swapRows_not_mem st.xy t1 t2 inds hf s, swapRows_not_mem st.prob t1 t2 inds hf s⟩
  · exact ⟨swapRows_not_mem st.xy t1 t2 inds hf s, swapRows_not_mem st.prob t1 t2 inds hf s⟩

/-- Witness for C6 at a concrete state and arguments. -/
theorem swap_tracklets_frame_effect_witness :
    (swap_tracklets exSt10 0 1 [0]).xy 0 0 = exSt10.xy 1 0 ∧
    (swap_tracklets exSt10 0 1 [0]).tracklet2bp 0 = exSt10.tracklet2bp 1 ∧
    (swap_tracklets exSt10 0 1 [0]).xy 2 0 = exSt10.xy 2 0 :=
  ⟨((swap_tracklets_frame_effect exSt10 0 1 [0]).1 0 (by decide)).1,
    (swap_tracklets_frame_effect exSt10 0 1 [0]).2.1.1,
    (((swap_tracklets_frame_effect exSt10 0 1 [0]).2.2.1 2 (by decide) (by decide)).2 0).1⟩

/-! ### C4 — no slot validation, no InvalidSlotError -/

/-- C4 counterexample: slot 1 of `exSt4` is empty (its mask entry is `true`),
yet `swap_tracklets` referencing it does not fail — the code has no
`InvalidSlotError` and performs no precondition check — and it mutates the
canonical array: slot 0's data at frame 0 changes. -/
theorem swap_on_empty_slot_mutates :
    exSt4.empty_tracklets 1 = true ∧
    (swap_tracklets exSt4 0 1 [0]).xy 0 0 ≠ exSt4.xy 0 0 := by
  constructor
  · decide
  · decide

/-- C4 (amended): mutating operations perform no slot validation at all: even
when the referenced slot is marked empty, `swap_tracklets` proceeds and
performs its usual exchange of the canonical array. -/
theorem swap_on_empty_slot_proceeds (st : TMState) (t1 t2 : ℕ) (inds : List ℕ)
    (f : ℕ) (_hempty : st.empty_tracklets t2 = true) (hf : f ∈ inds) :
    (swap_tracklets st t1 t2 inds).xy t1 f = st.xy t2 f ∧
    (swap_tracklets st t1 t2 inds).xy t2 f = st.xy t1 f ∧
    (swap_tracklets st t1 t2 inds).prob t1 f = st.prob t2 f ∧
    (swap_tracklets st t1 t2 inds).prob t2 f = st.prob t1 f := by
  exact ⟨(swapRows_mem st.xy t1 t2 inds hf t1).trans (swapVals_fst _ t1 t2),
    (swapRows_mem st.xy t1 t2 inds hf t2).trans (swapVals_snd _ t1 t2),
    (swapRows_mem st.prob t1 t2 inds hf t1).trans (swapVals_fst _ t1 t2),
    (swapRows_mem st.prob t1 t2 inds hf t2).trans (swapVals_snd _ t1 t2)⟩

/-- Witness for the amended C4 at a concrete state with an empty slot. -/
theorem swap_on_empty_slot_proceeds_witness :
    (swap_tracklets exSt4 0 1 [0]).xy 0 0 = exSt4.xy 1 0 :=
  (swap_on_empty_slot_proceeds exSt4 0 1 [0] 0 (by decide) (by decide)).1

/-! ### C3 — mask recomputation after mutations -/

unseal Rat.mul in
/-- C3 counterexample: after `swap_tracklets` moves all of slot 0's data away,
the stored empty mask still reads `false` for slot 0 although recomputing it
with `update_empty_mask` yields `true` — so `swap_tracklets` did not run the
mask recomputation at the end of the call. -/
theorem swap_tracklets_mask_goes_stale :
    (swap_tracklets exSt3 0 1 [0, 1]).empty_tracklets 0
      ≠ (update_empty_mask (swap_tracklets exSt3 0 1 [0, 1])).empty_tracklets 0 := by
  decide

/-- C3 (amended): `swap_tracklets` runs neither `update_empty_mask` nor
`update_unidentified_mask` — it returns both masks exactly as they were — and
`cut_tracklet` does not recompute them either, instead directly patching the
single entry of the chosen empty slot (`unidentified := true`,
`empty := false`). -/
theorem mutations_do_not_recompute_masks (st : TMState) (t1 t2 num : ℕ)
    (inds inds2 : List ℕ) :
    (swap_tracklets st t1 t2 inds).empty_tracklets = st.empty_tracklets ∧
    (swap_tracklets st t1 t2 inds).unidentified_tracklets = st.unidentified_tracklets ∧
    (cut_tracklet st num inds2).empty_tracklets
      = writeAt st.empty_tracklets (argmaxBool st.empty_tracklets st.n) false ∧
    (cut_tracklet st num inds2).unidentified_tracklets
      = writeAt st.unidentified_tracklets (argmaxBool st.empty_tracklets st.n) true :=
  ⟨rfl, rfl, rfl, rfl⟩

/-! ### C10 — cut_tracklet with an all-false empty mask -/

/-- `np.argmax` of an all-`False` boolean vector is index 0. -/
theorem argmaxBool_eq_zero_of_all_false (mask : ℕ → Bool) (n : ℕ)
    (h : ∀ s ∈ List.range n, mask s = false) : argmaxBool mask n = 0 := by
  unfold argmaxBool
  have hn : (List.range n).find? (fun s => mask s) = none := by
    rw [List.find?_eq_none]
    intro x hx
    simp [h x hx]
  rw [hn]
  rfl

/-- C10: when no slot is marked empty, `cut_tracklet` does not fail:
`np.argmax` over the all-`False` mask selects index 0, the cut frames are
exchanged with slot 0, slot 0's bodypart mapping becomes the cut slot's
bodypart, slot 0 is marked unidentified, and its empty-mask entry is
`false`. -/
theorem cut_tracklet_no_empty_slots (st : TMState) (num : ℕ) (inds : List ℕ)
    (h : ∀ s ∈ List.range st.n, st.empty_tracklets s = false) :
    argmaxBool st.empty_tracklets st.n = 0 ∧
    (∀ f ∈ inds,
      (cut_tracklet st num inds).xy num f = st.xy 0 f ∧
      (cut_tracklet st num inds).xy 0 f = st.xy num f ∧
      (cut_tracklet st num inds).prob num f = st.prob 0 f ∧
      (cut_tracklet st num inds).prob 0 f = st.prob num f) ∧
    (cut_tracklet st num inds).tracklet2bp 0 = st.tracklet2bp num ∧
    (cut_tracklet st num inds).unidentified_tracklets 0 = true ∧
    (cut_tracklet st num inds).empty_tracklets 0 = false := by
  have h0 : argmaxBool st.empty_tracklets st.n = 0 :=
    argmaxBool_eq_zero_of_all_false st.empty_tracklets st.n h
  refine ⟨h0, fun f hf => ?_, ?_, ?_, ?_⟩
  · have hxy : (cut_tracklet st num inds).xy
        = swapRows st.xy num (argmaxBool st.empty_tracklets st.n) inds := rfl
    have hp : (cut_tracklet st num inds).prob
        = swapRows st.prob num (argmaxBool st.empty_tracklets st.n) inds := rfl
    rw [hxy, hp, h0]
    exact ⟨(swapRows_mem st.xy num 0 inds hf num).trans (swapVals_fst _ num 0),
      (swapRows_mem st.xy num 0 inds hf 0).trans (swapVals_snd _ num 0),
      (swapRows_mem st.prob num 0 inds hf num).trans (swapVals_fst _ num 0),
      (swapRows_mem st.prob num 0 inds hf 0).trans (swapVals_snd _ num 0)⟩
  · have hbp : (cut_tracklet st num inds).tracklet2bp
        = swapVals (writeAt st.tracklet2bp (argmaxBool st.empty_tracklets st.n)
            (st.tracklet2bp num)) num (argmaxBool st.empty_tracklets st.n) := rfl
    rw [hbp, h0]
    by_cases hnum : num = 0
    · subst hnum
      rw [swapVals_fst]
      simp [writeAt]
    · rw [swapVals_snd]
      simp [writeAt, hnum]
  · have hu : (cut_tracklet st num inds).unidentified_tracklets
        = writeAt st.unidentified_tracklets (argmaxBool st.empty_tracklets st.n) true := rfl
    rw [hu, h0]
    simp [writeAt]
  · have he : (cut_tracklet st num inds).empty_tracklets
        = writeAt st.empty_tracklets (argmaxBool st.empty_tracklets st.n) false := rfl
    rw [he, h0]
    simp [writeAt]

/-- Witness for C10 at a concrete state with an all-`false` empty mask. -/
theorem cut_tracklet_no_empty_slots_witness :
    argmaxBool exSt10.empty_tracklets exSt10.n = 0 ∧
    (cut_tracklet exSt10 1 [0]).unidentified_tracklets 0 = true ∧
    (cut_tracklet exSt10 1 [0]).xy 1 0 = exSt10.xy 0 0 := by
  have h := cut_tracklet_no_empty_slots exSt10 1 [0] (by decide)
  exact ⟨h.1, h.2.2.2.1, (h.2.1 0 (by decide)).1⟩

/-! ### C7 — completeness values and the empty mask -/

/-- Two slots over two frames; slot 0 holds data in both frames. -/
def exSt7 : TMState where
  n := 2
  nframes := 2
  xy := fun s _f => if s = 0 then (some 3, some 4) else (none, none)
  prob := fun s _f => if s = 0 then some 1 else none
  tracklet2id := fun s => s
  tracklet2bp := fun s => s
  unidentified_tracklets := fun _s => false
  empty_tracklets := fun s => decide (s = 1)
  min_swap_frac := mkRat 1 100
  min_tracklet_frac := mkRat 1 100

/-- C7 counterexample: `calc_completeness` returns a frame count, not a
fraction — on a slot with two non-NaN frames the value is 2, which does not
lie in [0, 1]. -/
theorem calc_completeness_exceeds_one :
    ¬ ((calc_completeness exSt7.nframes exSt7.xy 0 : ℚ) ≤ 1) := by
  decide

/-- C7 (amended): `calc_completeness` lies in [0, nframes] (it is a count of
non-NaN frames), and after `update_empty_mask` a slot is marked empty iff this
count is at most `min_tracklet_frac * nframes`. -/
theorem calc_completeness_bounds_and_empty_iff (st : TMState) (s : ℕ) :
    calc_completeness st.nframes st.xy s ≤ st.nframes ∧
    ((update_empty_mask st).empty_tracklets s = true ↔
      (calc_completeness st.nframes st.xy s : ℚ)
        ≤ st.min_tracklet_frac * (st.nframes : ℚ)) := by
  constructor
  · calc calc_completeness st.nframes st.xy s
        ≤ (List.range st.nframes).length := List.countP_le_length _
      _ = st.nframes := List.length_range st.nframes
  · simp [update_empty_mask]

/-! ### C2 — the crossing condition of the Swap Detector -/

/-- Two slots over two frames whose x difference flips positive-to-negative
while their y difference flips negative-to-positive. -/
def exSt2 : TMState where
  n := 2
  nframes := 2
  xy := fun s f =>
    if s = 0 then (if f = 0 then (some 1, some 0) else (some 0, some 1))
    else (if f = 0 then (some 0, some 1) else (some 1, some 0))
  prob := fun _s _f => some 1
  tracklet2id := fun s => s
  tracklet2bp := fun s => s
  unidentified_tracklets := fun _s => false
  empty_tracklets := fun _s => false
  min_swap_frac := mkRat 1 100
  min_tracklet_frac := mkRat 1 100

unseal Rat.sub in
/-- C2 counterexample: at frame 1 of `exSt2` the code declares a crossing of
slots 0 and 1 (the x and y differences each flip sign), yet the two flips are
in opposite directions, so the spec's same-direction condition does not hold —
the claimed equivalence is false at this input. -/
theorem crossing_without_same_direction :
    tracklet_swaps exSt2 0 1 1 = true ∧
    same_direction_crossing exSt2 0 1 1 = false := by
  constructor
  · decide
  · decide

/-- A zero crossing of a difference trajectory at frame `t` is exactly a sign
flip, in either direction, between the values at frames `t-1` and `t`. -/
theorem zeroCrossingAt_iff_sign_flip (d : ℕ → Cell) (t : ℕ) :
    zeroCrossingAt d t = true ↔ sign_flip (d (t - 1)) (d t) := by
  cases h0 : d (t - 1) <;> cases h1 : d t
  all_goals simp [zeroCrossingAt, downAt, upAt, sign_flip, posD, negD, h0, h1]
  tauto

/-- C2 (amended): a crossing of slots `i`, `j` is declared at frame `t` iff
the x difference flips sign between frames `t-1` and `t` and the y difference
flips sign between the same frames — each flip in either direction
independently, not necessarily the same. -/
theorem tracklet_swaps_iff_both_flip (st : TMState) (i j t : ℕ) :
    tracklet_swaps st i j t = true ↔
      sign_flip (subx st i j (t - 1)) (subx st i j t) ∧
      sign_flip (suby st i j (t - 1)) (suby st i j t) := by
  unfold tracklet_swaps
  rw [Bool.and_eq_true, zeroCrossingAt_iff_sign_flip, zeroCrossingAt_iff_sign_flip]

/-! ### C8 — conditions satisfied by every recorded swapping pair -/

/-- C8: every pair recorded in `swapping_pairs` has a total crossing count
strictly exceeding `min_swap_frac * nframes`, and its two slots are mapped to
different individuals by `tracklet2id`. -/
theorem swapping_pairs_conditions (st : TMState) (p : ℕ × ℕ)
    (hp : p ∈ find_swapping_bodypart_pairs st) :
    st.min_swap_frac * (st.nframes : ℚ) < (crossCount st p.1 p.2 : ℚ) ∧
    st.tracklet2id p.1 ≠ st.tracklet2id p.2 := by
  simp only [find_swapping_bodypart_pairs] at hp
  rw [List.mem_filter] at hp
  obtain ⟨hmem, hid⟩ := hp
  refine ⟨?_, by simpa using hid⟩
  rw [List.mem_flatMap] at hmem
  obtain ⟨i, _hi, hmem2⟩ := hmem
  rw [List.mem_filterMap] at hmem2
  obtain ⟨j, _hj, hij⟩ := hmem2
  by_cases hc : crossOver st ((nonemptySlots st).getD i 0) ((nonemptySlots st).getD j 0) = true
  · rw [if_pos hc] at hij
    obtain rfl := Option.some.inj hij
    simpa [crossOver] using hc
  · rw [if_neg hc] at hij
    exact absurd hij (by simp)

/-- Two slots over two frames that cross each other in both coordinates at
frame 1, with an all-`false` empty mask and distinct individuals. -/
def exSt8 : TMState where
  n := 2
  nframes := 2
  xy := fun s f =>
    if s = 0 then (if f = 0 then (some 0, some 0) else (some 1, some 1))
    else (if f = 0 then (some 1, some 1) else (some 0, some 0))
  prob := fun _s _f => some 1
  tracklet2id := fun s => s
  tracklet2bp := fun s => s
  unidentified_tracklets := fun _s => false
  empty_tracklets := fun _s => false
  min_swap_frac := mkRat 1 100
  min_tracklet_frac := mkRat 1 100

unseal Rat.sub Rat.mul in
/-- Witness for C8: `exSt8` records the pair (1, 0), and that pair satisfies
both retained-pair conditions. -/
theorem swapping_pairs_conditions_witness :
    ((1, 0) : ℕ × ℕ) ∈ find_swapping_bodypart_pairs exSt8 ∧
    (exSt8.min_swap_frac * (exSt8.nframes : ℚ) < (crossCount exSt8 1 0 : ℚ) ∧
      exSt8.tracklet2id 1 ≠ exSt8.tracklet2id 0) :=
  ⟨by decide, swapping_pairs_conditions exSt8 (1, 0) (by decide)⟩

/-! ### C1 — processing order of the Slot Assignment Engine -/

/-- Two raw tracklets over two frames: tracklet 0 complete, tracklet 1
empty. -/
def exEntries : List (ℕ × List Row) :=
  [(0, [[some 1], [some 1]]), (1, [[none], [none]])]

unseal Rat.mul Rat.inv in
/-- C1 counterexample: the `while` loop pops tracklets from the end of the
ascending-sorted list, so on `exEntries` the most complete tracklet
(completeness 1) is written first and the empty one (completeness 0) second —
the write order is not ascending by completeness. -/
theorem processing_order_not_ascending :
    ¬ (((processing_order 2 exEntries).map
          (fun e => completeness 2 e.2)).Pairwise (fun a b => a ≤ b)) := by
  decide

/-- C1 (amended): the order in which tracklets are written into the canonical
array is descending by completeness — `list.pop()` takes from the end of the
ascending-sorted list, so the most complete tracklet is applied first, over
the still-empty target. -/
theorem processing_order_descending (nframes : ℕ) (entries : List (ℕ × List Row)) :
    ((processing_order nframes entries).map
        (fun e => completeness nframes e.2)).Pairwise (fun a b => b ≤ a) := by
  have hs : (tracklets_sorted nframes entries).Pairwise
      (fun a b => completeness nframes a.2 ≤ completeness nframes b.2) := by
    haveI ht : IsTotal (ℕ × List Row)
        (fun a b => completeness nframes a.2 ≤ completeness nframes b.2) :=
      ⟨fun a b => le_total _ _⟩
    haveI htr : IsTrans (ℕ × List Row)
        (fun a b => completeness nframes a.2 ≤ completeness nframes b.2) :=
      ⟨fun _a _b _c h1 h2 => le_trans h1 h2⟩
    exact List.sorted_insertionSort _ entries
  unfold processing_order
  rw [List.pairwise_map, List.pairwise_reverse]
  exact hs

/-! ### C9 — single-identity placement rule -/

/-- C9: the single-identity placement writes the tracklet's triple into every
cell where the target is still NaN, leaves the target alone where the tracklet
has no data, and on conflicting cells keeps whichever triple has the strictly
higher confidence — equal confidence keeps the target (no overwrite). -/
theorem place_single_identity_cases (target data : Grid) (f b : ℕ) :
    (target f b = none → place_single_identity target data f b = data f b) ∧
    (data f b = none → place_single_identity target data f b = target f b) ∧
    (∀ tv dv, target f b = some tv → data f b = some dv →
      place_single_identity target data f b
        = if tv.2.2 < dv.2.2 then some dv else some tv) := by
  refine ⟨fun ht => ?_, fun hd => ?_, fun tv dv ht hd => ?_⟩
  · cases hd : data f b <;>
      simp [place_single_identity, resolveOverwrite, fillFree, ht, hd]
  · cases ht : target f b <;>
      simp [place_single_identity, resolveOverwrite, fillFree, ht, hd]
  · simp [place_single_identity, resolveOverwrite, fillFree, ht, hd]

/-- A concrete single-identity target: one triple at frame 0. -/
def exTarget : Grid := fun f _b => if f = 0 then some (1, 1, mkRat 1 2) else none

/-- A concrete single-identity tracklet: a higher-confidence triple at frame 0
and a fresh triple at frame 1. -/
def exData : Grid :=
  fun f _b =>
    if f = 0 then some (2, 2, mkRat 3 4)
    else if f = 1 then some (5, 5, 1) else none

/-- Witness for C9: the free cell at frame 1 receives the tracklet's triple,
and the conflicting cell at frame 0 keeps the higher-confidence triple. -/
theorem place_single_identity_cases_witness :
    place_single_identity exTarget exData 1 0 = exData 1 0 ∧
    place_single_identity exTarget exData 0 0 = some (2, 2, mkRat 3 4) := by
  refine ⟨(place_single_identity_cases exTarget exData 1 0).1 rfl, ?_⟩
  have h := (place_single_identity_cases exTarget exData 0 0).2.2
    (1, 1, mkRat 1 2) (2, 2, mkRat 3 4) rfl rfl
  rw [h, if_pos (by decide)]
